import Mathlib

/-!
Verification of the Longhorn setting controller
(`src/controller/setting_controller.go`).

The controller reconciles settings: for the distinguished upgrade-checker
setting it periodically asks a remote service for the latest version and
caches the answer in the store.  We embed the pure logic of the Go file:
times are integers (nanoseconds, as Go's `time.Duration`), the external
datastore and the network are modelled by an environment recording what
each call would return, and the outcome of a sync records the returned
error, the controller's timestamp field, the store reads and writes it
performed, and how many network calls it made.
-/

/-- The tag the version checker scans for (`VersionTagLatest = "latest"`). -/
def VersionTagLatest : String := "latest"

/-- `upgradeCheckInterval = time.Duration(24) * time.Hour`, in nanoseconds. -/
def upgradeCheckInterval : Int := 24 * 60 * 60 * 1000000000

/-- Modelled from the spec: the name of the distinguished upgrade-checker
setting.  The constant `types.SettingNameUpgradeChecker` is declared in the
repository's `types` package, outside the provided source; only its identity
matters here, never its literal value. -/
def SettingNameUpgradeChecker : String := "upgrade-checker"

/-- Modelled from the spec: the name of the cached latest-version setting
(`types.SettingNameLatestLonghornVersion`, declared in the repository's
`types` package outside the provided source). -/
def SettingNameLatestLonghornVersion : String := "latest-longhorn-version"

/-- A version descriptor of the remote service's response (`type Version`). -/
structure Version where
  Name : String
  ReleaseDate : String
  Tags : List String
deriving Repr, DecidableEq

/-- The decoded body of the remote check (`type CheckUpgradeResponse`). -/
structure CheckUpgradeResponse where
  Versions : List Version
deriving Repr, DecidableEq

/-- A setting as stored (`longhorn.Setting`: a name and a string value). -/
structure Setting where
  Name : String
  Value : String
deriving Repr, DecidableEq

/-- Splitting of the helper `splitOnSlash`: the list of `/`-separated
segments of a character list, mirroring Go's `strings.Split(key, "/")`. -/
def splitOnSlash : List Char → List (List Char)
  | [] => [[]]
  | c :: rest =>
    let r := splitOnSlash rest
    if c = '/' then [] :: r
    else
      match r with
      | [] => [[c]]
      | h :: t => (c :: h) :: t

/-- `cache.SplitMetaNamespaceKey` (client-go): one segment means name only,
two segments mean namespace and name, anything else is a malformed key. -/
def SplitMetaNamespaceKey (key : String) : Except String (String × String) :=
  match splitOnSlash key.toList with
  | [n] => Except.ok ("", String.mk n)
  | [ns, n] => Except.ok (String.mk ns, String.mk n)
  | _ => Except.error ("unexpected key format: " ++ key)

/-- The selection loop of `CheckLatestLonghornVersion`: `latestVersion`
starts empty; the first descriptor whose `Tags` contains
`VersionTagLatest` sets it and breaks the loop. -/
def findLatestVersionName : List Version → String
  | [] => ""
  | v :: rest =>
    if v.Tags.contains VersionTagLatest then v.Name
    else findLatestVersionName rest

/-- The pure tail of `CheckLatestLonghornVersion`, applied to the decoded
response.  The HTTP round trip and the JSON decode are external; their
failures reach the sync handler the same way this error does.  The Go error
message also prints the response (`%+v`); we keep the fixed prefix. -/
def CheckLatestLonghornVersion (resp : CheckUpgradeResponse) : Except String String :=
  let latestVersion := findLatestVersionName resp.Versions
  if latestVersion = "" then
    Except.error "cannot find latest version in response"
  else
    Except.ok latestVersion

/-- What the external collaborators would answer during one `syncSetting`
invocation: the two store reads, the current time (`time.Now()`), the
result of `CheckLatestLonghornVersion` (network included), and whether an
`UpdateSetting` call would fail. -/
structure SyncEnv where
  getSettingAsBool : Except String Bool
  getSetting : Except String Setting
  now : Int
  check : Except String String
  updateErr : Option String
deriving Repr

/-- The observable outcome of one `syncSetting` invocation: the returned
error (`none` is success), the controller's `lastUpgradeCheckedTimestamp`
field after the call, the names read from the store, the settings passed to
`UpdateSetting`, and the number of network calls. -/
structure SyncOutcome where
  err : Option String
  lastUpgradeCheckedTimestamp : Int
  reads : List String
  updates : List Setting
  networkCalls : Nat
deriving Repr, DecidableEq

/-- The body of `syncSetting` before the deferred `errors.Wrapf`:
split the key; ignore names other than the upgrade checker; load the
enabled flag and the cached version; disabled clears the cache and resets
the timestamp; enabled inside the debounce window is a no-op; otherwise run
the check, stamp the time, and write back only on change. -/
def syncSettingBody (key : String) (last : Int) (env : SyncEnv) : SyncOutcome :=
  match SplitMetaNamespaceKey key with
  | Except.error e => ⟨some e, last, [], [], 0⟩
  | Except.ok (_, name) =>
    if name ≠ SettingNameUpgradeChecker then ⟨none, last, [], [], 0⟩
    else
      match env.getSettingAsBool with
      | Except.error e => ⟨some e, last, [SettingNameUpgradeChecker], [], 0⟩
      | Except.ok upgradeCheckerEnabled =>
        match env.getSetting with
        | Except.error e =>
          ⟨some e, last, [SettingNameUpgradeChecker, SettingNameLatestLonghornVersion], [], 0⟩
        | Except.ok latestLonghornVersion =>
          let reads := [SettingNameUpgradeChecker, SettingNameLatestLonghornVersion]
          if upgradeCheckerEnabled = false then
            if latestLonghornVersion.Value ≠ "" then
              let cleared : Setting := { latestLonghornVersion with Value := "" }
              match env.updateErr with
              | some e => ⟨some e, last, reads, [cleared], 0⟩
              | none => ⟨none, 0, reads, [cleared], 0⟩
            else ⟨none, 0, reads, [], 0⟩
          else
            if env.now < last + upgradeCheckInterval then ⟨none, last, reads, [], 0⟩
            else
              let oldVersion := latestLonghornVersion.Value
              match env.check with
              | Except.error e => ⟨some e, last, reads, [], 1⟩
              | Except.ok newValue =>
                if newValue ≠ oldVersion then
                  let updated : Setting := { latestLonghornVersion with Value := newValue }
                  match env.updateErr with
                  | some e => ⟨some e, env.now, reads, [updated], 1⟩
                  | none => ⟨none, env.now, reads, [updated], 1⟩
                else ⟨none, env.now, reads, [], 1⟩

/-- `syncSetting`: the body plus the deferred
`errors.Wrapf(err, "fail to sync setting for %v", key)`, which wraps a
non-nil error with the key and leaves a nil error nil. -/
def syncSetting (key : String) (last : Int) (env : SyncEnv) : SyncOutcome :=
  let o := syncSettingBody key last env
  { o with err := o.err.map (fun msg => "fail to sync setting for " ++ key ++ ": " ++ msg) }

/-- Calls the worker makes on its queue and on the error reporter. -/
inductive QueueOp where
  | forget (key : String)
  | addRateLimited (key : String)
  | reportError (msg : String)
  | done (key : String)
deriving Repr, DecidableEq

/-- `handleErr`: nil forgets the key; an error is re-added rate-limited
while `NumRequeues(key) < maxRetries`, else reported and forgotten.
`maxRetries` is a package constant declared outside the provided source, so
it is a parameter here; nothing below depends on its value. -/
def handleErr (err : Option String) (numRequeues maxRetries : Nat) (key : String) :
    List QueueOp :=
  match err with
  | none => [QueueOp.forget key]
  | some e =>
    if numRequeues < maxRetries then [QueueOp.addRateLimited key]
    else [QueueOp.reportError e, QueueOp.forget key]

/-- `processNextWorkItem`: `Get` returning quit stops the worker; otherwise
the key is synced, the result handled, and the deferred `Done` runs last.
`getResult = none` models `quit`, and `sync` models `syncSetting`'s
returned error for the dequeued key. -/
def processNextWorkItem (getResult : Option String) (sync : String → Option String)
    (numRequeues maxRetries : Nat) : Bool × List QueueOp :=
  match getResult with
  | none => (false, [])
  | some key => (true, handleErr (sync key) numRequeues maxRetries key ++ [QueueOp.done key])

/-- `enqueueSetting`: `controller.KeyFunc` failing is reported through
`utilruntime.HandleError` and nothing is enqueued; on success the key is
added rate-limited.  `keyFuncResult` models the `KeyFunc` call. -/
def enqueueSetting (keyFuncResult : Except String String) : List QueueOp :=
  match keyFuncResult with
  | Except.error e => [QueueOp.reportError ("Couldn't get key for object: " ++ e)]
  | Except.ok key => [QueueOp.addRateLimited key]

/-! ### Helper lemmas -/

theorem findLatestVersionName_eq_empty_of_no_latest
    (versions : List Version)
    (h : ∀ v ∈ versions, v.Tags.contains VersionTagLatest = false) :
    findLatestVersionName versions = "" := by
  induction versions with
  | nil => rfl
  | cons v rest ih =>
    have hv : VersionTagLatest ∉ v.Tags := by
      simpa using h v (List.mem_cons_self v rest)
    have hrest := ih (fun w hw => h w (List.mem_cons_of_mem v hw))
    simp [findLatestVersionName, hv, hrest]

/-! ### Claim theorems -/

/-- C2: with the upgrade-checker key, the feature enabled and
`now < LastCheckedAt + interval` (the interval being a fixed 24 hours),
`syncSetting` makes no network call, performs no store write, leaves the
timestamp (and hence the cached version) unchanged and returns success. -/
theorem syncSetting_debounce_noop
    (key ns : String) (last : Int) (env : SyncEnv) (s : Setting)
    (hkey : SplitMetaNamespaceKey key = Except.ok (ns, SettingNameUpgradeChecker))
    (hen : env.getSettingAsBool = Except.ok true)
    (hget : env.getSetting = Except.ok s)
    (hdeb : env.now < last + upgradeCheckInterval) :
    (syncSetting key last env).err = none
    ∧ (syncSetting key last env).lastUpgradeCheckedTimestamp = last
    ∧ (syncSetting key last env).updates = []
    ∧ (syncSetting key last env).networkCalls = 0
    ∧ upgradeCheckInterval = 24 * 60 * 60 * 1000000000 := by
  have hbody : syncSetting key last env
      = ⟨none, last, [SettingNameUpgradeChecker, SettingNameLatestLonghornVersion], [], 0⟩ := by
    simp [syncSetting, syncSettingBody, hkey, hen, hget, hdeb]
  rw [hbody]
  exact ⟨rfl, rfl, rfl, rfl, rfl⟩

/-- C1: with the upgrade-checker key, the feature enabled, the debounce
window past and the remote check succeeding with version `v`,
`syncSetting` sets the timestamp to `now` unconditionally and calls
`UpdateSetting` exactly when `v` differs from the cached value; a second
successful check returning the same version (now cached) writes nothing,
so two consecutive identical successful checks write once in total. -/
theorem syncSetting_success_stamps_time_and_writes_only_on_change
    (key ns : String) (last : Int) (env env2 : SyncEnv) (s : Setting) (v : String)
    (hkey : SplitMetaNamespaceKey key = Except.ok (ns, SettingNameUpgradeChecker))
    (hen : env.getSettingAsBool = Except.ok true)
    (hget : env.getSetting = Except.ok s)
    (hdeb : ¬ env.now < last + upgradeCheckInterval)
    (hchk : env.check = Except.ok v)
    (hen2 : env2.getSettingAsBool = Except.ok true)
    (hget2 : env2.getSetting = Except.ok { s with Value := v })
    (hdeb2 : ¬ env2.now < env.now + upgradeCheckInterval)
    (hchk2 : env2.check = Except.ok v) :
    (syncSetting key last env).lastUpgradeCheckedTimestamp = env.now
    ∧ (syncSetting key last env).updates
        = (if v = s.Value then [] else [{ s with Value := v }])
    ∧ (syncSetting key env.now env2).updates = [] := by
  refine ⟨?_, ?_, ?_⟩
  · by_cases hv : v = s.Value
    · simp [syncSetting, syncSettingBody, hkey, hen, hget, hdeb, hchk, hv]
    · cases hu : env.updateErr with
      | none => simp [syncSetting, syncSettingBody, hkey, hen, hget, hdeb, hchk, hv, hu]
      | some e => simp [syncSetting, syncSettingBody, hkey, hen, hget, hdeb, hchk, hv, hu]
  · by_cases hv : v = s.Value
    · simp [syncSetting, syncSettingBody, hkey, hen, hget, hdeb, hchk, hv]
    · cases hu : env.updateErr with
      | none => simp [syncSetting, syncSettingBody, hkey, hen, hget, hdeb, hchk, hv, hu]
      | some e => simp [syncSetting, syncSettingBody, hkey, hen, hget, hdeb, hchk, hv, hu]
  · simp [syncSetting, syncSettingBody, hkey, hen2, hget2, hdeb2, hchk2]

/-- C3: with the upgrade-checker key and the feature disabled (the store
update succeeding), `syncSetting` returns success, resets the timestamp to
the zero time, clears and persists the cached version when it was
non-empty, and writes nothing when it was already empty. -/
theorem syncSetting_disabled_resets_and_clears
    (key ns : String) (last : Int) (env : SyncEnv) (s : Setting)
    (hkey : SplitMetaNamespaceKey key = Except.ok (ns, SettingNameUpgradeChecker))
    (hen : env.getSettingAsBool = Except.ok false)
    (hget : env.getSetting = Except.ok s)
    (hupd : env.updateErr = none) :
    (syncSetting key last env).err = none
    ∧ (syncSetting key last env).lastUpgradeCheckedTimestamp = 0
    ∧ (syncSetting key last env).updates
        = (if s.Value = "" then [] else [{ s with Value := "" }]) := by
  by_cases hv : s.Value = ""
  · simp [syncSetting, syncSettingBody, hkey, hen, hget, hv]
  · simp [syncSetting, syncSettingBody, hkey, hen, hget, hupd, hv]

/-- C6: with the upgrade-checker key, the feature enabled and the debounce
window past, a failing check makes `syncSetting` return that error (the
body returns it unchanged; the deferred wrap prefixes the key), leave the
timestamp at its prior value and perform no store write. -/
theorem syncSetting_check_failure_keeps_state
    (key ns : String) (last : Int) (env : SyncEnv) (s : Setting) (e : String)
    (hkey : SplitMetaNamespaceKey key = Except.ok (ns, SettingNameUpgradeChecker))
    (hen : env.getSettingAsBool = Except.ok true)
    (hget : env.getSetting = Except.ok s)
    (hdeb : ¬ env.now < last + upgradeCheckInterval)
    (hchk : env.check = Except.error e) :
    (syncSettingBody key last env).err = some e
    ∧ (syncSetting key last env).err
        = some ("fail to sync setting for " ++ key ++ ": " ++ e)
    ∧ (syncSetting key last env).lastUpgradeCheckedTimestamp = last
    ∧ (syncSetting key last env).updates = [] := by
  have hbody : syncSettingBody key last env
      = ⟨some e, last, [SettingNameUpgradeChecker, SettingNameLatestLonghornVersion], [], 1⟩ := by
    simp [syncSettingBody, hkey, hen, hget, hdeb, hchk]
  refine ⟨by rw [hbody], ?_, ?_, ?_⟩ <;> simp [syncSetting, hbody]

/-- C4: the checker scans the response in order and returns the `Name` of
the first descriptor whose `Tags` contains `"latest"`, stopping there (the
rest of the list is irrelevant, so it is not a max-by-semver); a descriptor
without the tag is skipped; on the response of the claim
(`1.0.0` tagged `stable`, then `1.1.0` tagged `latest`) it selects
`"1.1.0"`. -/
theorem checkLatest_first_match_selection
    (v w : Version) (restv restw : List Version)
    (hv : v.Tags.contains VersionTagLatest = true)
    (hvn : v.Name ≠ "")
    (hw : w.Tags.contains VersionTagLatest = false) :
    findLatestVersionName (v :: restv) = v.Name
    ∧ CheckLatestLonghornVersion ⟨v :: restv⟩ = Except.ok v.Name
    ∧ findLatestVersionName (w :: restw) = findLatestVersionName restw
    ∧ CheckLatestLonghornVersion
        ⟨[⟨"1.0.0", "", ["stable"]⟩, ⟨"1.1.0", "", ["latest"]⟩]⟩ = Except.ok "1.1.0" := by
  have hv2 : VersionTagLatest ∈ v.Tags := by simpa using hv
  have h1 : findLatestVersionName (v :: restv) = v.Name := by
    simp [findLatestVersionName, hv2]
  have hw2 : VersionTagLatest ∉ w.Tags := by simpa using hw
  refine ⟨h1, ?_, ?_, rfl⟩
  · simp [CheckLatestLonghornVersion, h1, hvn]
  · simp [findLatestVersionName, hw2]

/-- C5: a well-formed response none of whose descriptors carries the
`"latest"` tag makes the checker fail with the cannot-find-latest-version
error; through the sync handler that failure comes back as an error (with
the key prefixed by the deferred wrap), and while the key's requeue count
is below the retry budget `handleErr` re-adds it rate-limited — a
retryable failure, not a swallowed one. -/
theorem checkLatest_no_latest_tag_error
    (resp : CheckUpgradeResponse)
    (hall : ∀ v ∈ resp.Versions, v.Tags.contains VersionTagLatest = false)
    (key ns : String) (last : Int) (env : SyncEnv) (s : Setting)
    (numRequeues maxRetries : Nat)
    (hkey : SplitMetaNamespaceKey key = Except.ok (ns, SettingNameUpgradeChecker))
    (hen : env.getSettingAsBool = Except.ok true)
    (hget : env.getSetting = Except.ok s)
    (hdeb : ¬ env.now < last + upgradeCheckInterval)
    (hchk : env.check = CheckLatestLonghornVersion resp)
    (hnr : numRequeues < maxRetries) :
    CheckLatestLonghornVersion resp = Except.error "cannot find latest version in response"
    ∧ (syncSetting key last env).err
        = some ("fail to sync setting for " ++ key ++ ": "
            ++ "cannot find latest version in response")
    ∧ handleErr (syncSetting key last env).err numRequeues maxRetries key
        = [QueueOp.addRateLimited key] := by
  have hfind := findLatestVersionName_eq_empty_of_no_latest resp.Versions hall
  have hcheck : CheckLatestLonghornVersion resp
      = Except.error "cannot find latest version in response" := by
    simp [CheckLatestLonghornVersion, hfind]
  have herr : env.check = Except.error "cannot find latest version in response" :=
    hchk.trans hcheck
  have hsync : (syncSetting key last env).err
      = some ("fail to sync setting for " ++ key ++ ": "
          ++ "cannot find latest version in response") := by
    simp [syncSetting, syncSettingBody, hkey, hen, hget, hdeb, herr]
  refine ⟨hcheck, hsync, ?_⟩
  rw [hsync]
  simp [handleErr, hnr]

/-- C10: when the first descriptor whose `Tags` contains `"latest"` has an
empty `Name`, the loop breaks with the empty selection and the checker
returns the cannot-find-latest-version error, whatever descriptors (even
non-empty `"latest"`-tagged ones) follow — indistinguishable from the tag
being absent. -/
theorem checkLatest_empty_name_first_latest_errors
    (v : Version) (rest : List Version)
    (hname : v.Name = "")
    (htag : v.Tags.contains VersionTagLatest = true) :
    CheckLatestLonghornVersion ⟨v :: rest⟩
      = Except.error "cannot find latest version in response" := by
  have htag2 : VersionTagLatest ∈ v.Tags := by simpa using htag
  have h1 : findLatestVersionName (v :: rest) = "" := by
    simp [findLatestVersionName, htag2, hname]
  simp [CheckLatestLonghornVersion, h1]

/-- C7: the worker forgets a key whose sync returned nil; on an error it
re-adds the key rate-limited while `NumRequeues(key) < maxRetries` and
otherwise reports the error and forgets (drops) the key; the deferred
`Done` runs in every case. -/
theorem processNextWorkItem_outcomes
    (key e : String) (syncOk syncBad : String → Option String)
    (nrLow nrHigh maxRetries anyNr : Nat)
    (hok : syncOk key = none) (hbad : syncBad key = some e)
    (hlow : nrLow < maxRetries) (hhigh : ¬ nrHigh < maxRetries) :
    processNextWorkItem (some key) syncOk anyNr maxRetries
      = (true, [QueueOp.forget key, QueueOp.done key])
    ∧ processNextWorkItem (some key) syncBad nrLow maxRetries
      = (true, [QueueOp.addRateLimited key, QueueOp.done key])
    ∧ processNextWorkItem (some key) syncBad nrHigh maxRetries
      = (true, [QueueOp.reportError e, QueueOp.forget key, QueueOp.done key]) := by
  refine ⟨?_, ?_, ?_⟩
  · simp [processNextWorkItem, handleErr, hok]
  · simp [processNextWorkItem, handleErr, hbad, hlow]
  · simp [processNextWorkItem, handleErr, hbad, hhigh]

/-- C8: a key naming any setting other than the upgrade checker makes
`syncSetting` return success at once with no store read, no store write,
no network call and the timestamp untouched; `handleErr` on that nil
result only forgets the key, so such keys are never retried. -/
theorem syncSetting_other_key_noop
    (key ns name : String) (last : Int) (env : SyncEnv)
    (numRequeues maxRetries : Nat)
    (hkey : SplitMetaNamespaceKey key = Except.ok (ns, name))
    (hname : name ≠ SettingNameUpgradeChecker) :
    syncSetting key last env = ⟨none, last, [], [], 0⟩
    ∧ handleErr (syncSetting key last env).err numRequeues maxRetries key
        = [QueueOp.forget key] := by
  have h : syncSetting key last env = ⟨none, last, [], [], 0⟩ := by
    simp [syncSetting, syncSettingBody, hkey, hname]
  exact ⟨h, by rw [h]; simp [handleErr]⟩

/-- C9: when the key function cannot derive a store identity from the
notification payload, `enqueueSetting` reports the error immediately and
enqueues nothing — in particular it never calls `AddRateLimited`, so the
key cannot enter the queue's retry path. -/
theorem enqueueSetting_malformed_reported_not_enqueued
    (e k : String) :
    enqueueSetting (Except.error e)
      = [QueueOp.reportError ("Couldn't get key for object: " ++ e)]
    ∧ QueueOp.addRateLimited k ∉ enqueueSetting (Except.error e) := by
  refine ⟨rfl, ?_⟩
  simp [enqueueSetting]

/-! ### Concrete witnesses -/

/-- Environment of the first successful check of the C1 witness. -/
def envC1a : SyncEnv :=
  { getSettingAsBool := Except.ok true,
    getSetting := Except.ok ⟨SettingNameLatestLonghornVersion, ""⟩,
    now := upgradeCheckInterval,
    check := Except.ok "1.1.0",
    updateErr := none }

/-- Environment of the second successful check of the C1 witness. -/
def envC1b : SyncEnv :=
  { getSettingAsBool := Except.ok true,
    getSetting := Except.ok ⟨SettingNameLatestLonghornVersion, "1.1.0"⟩,
    now := 2 * upgradeCheckInterval,
    check := Except.ok "1.1.0",
    updateErr := none }

/-- C1 witness: a first check caching `1.1.0` writes once and stamps the
time; a second identical check a day later writes nothing. -/
theorem syncSetting_success_stamps_time_and_writes_only_on_change_witness :
    (syncSetting "upgrade-checker" 0 envC1a).lastUpgradeCheckedTimestamp = envC1a.now
    ∧ (syncSetting "upgrade-checker" 0 envC1a).updates
        = (if "1.1.0" = (⟨SettingNameLatestLonghornVersion, ""⟩ : Setting).Value then []
           else [{ (⟨SettingNameLatestLonghornVersion, ""⟩ : Setting) with Value := "1.1.0" }])
    ∧ (syncSetting "upgrade-checker" envC1a.now envC1b).updates = [] :=
  syncSetting_success_stamps_time_and_writes_only_on_change
    "upgrade-checker" "" 0 envC1a envC1b ⟨SettingNameLatestLonghornVersion, ""⟩ "1.1.0"
    rfl rfl rfl (by decide) rfl rfl rfl (by decide) rfl

/-- Environment of the C2 witness: one second short of the window's end. -/
def envC2 : SyncEnv :=
  { getSettingAsBool := Except.ok true,
    getSetting := Except.ok ⟨SettingNameLatestLonghornVersion, "1.0.0"⟩,
    now := upgradeCheckInterval - 1000000000,
    check := Except.ok "1.1.0",
    updateErr := none }

/-- C2 witness: with `LastCheckedAt = now - interval + 1s` the sync is a
pure success no-op. -/
theorem syncSetting_debounce_noop_witness :
    (syncSetting "upgrade-checker" 0 envC2).err = none
    ∧ (syncSetting "upgrade-checker" 0 envC2).lastUpgradeCheckedTimestamp = 0
    ∧ (syncSetting "upgrade-checker" 0 envC2).updates = []
    ∧ (syncSetting "upgrade-checker" 0 envC2).networkCalls = 0
    ∧ upgradeCheckInterval = 24 * 60 * 60 * 1000000000 :=
  syncSetting_debounce_noop "upgrade-checker" "" 0 envC2
    ⟨SettingNameLatestLonghornVersion, "1.0.0"⟩ rfl rfl rfl (by decide)

/-- Environment of the C3 witness: disabled with a non-empty cache. -/
def envC3 : SyncEnv :=
  { getSettingAsBool := Except.ok false,
    getSetting := Except.ok ⟨SettingNameLatestLonghornVersion, "1.0.0"⟩,
    now := 5,
    check := Except.ok "unused",
    updateErr := none }

/-- C3 witness: disabling clears the non-empty cached version with one
write and resets the timestamp to zero. -/
theorem syncSetting_disabled_resets_and_clears_witness :
    (syncSetting "upgrade-checker" 7 envC3).err = none
    ∧ (syncSetting "upgrade-checker" 7 envC3).lastUpgradeCheckedTimestamp = 0
    ∧ (syncSetting "upgrade-checker" 7 envC3).updates
        = (if (⟨SettingNameLatestLonghornVersion, "1.0.0"⟩ : Setting).Value = "" then []
           else [{ (⟨SettingNameLatestLonghornVersion, "1.0.0"⟩ : Setting) with Value := "" }]) :=
  syncSetting_disabled_resets_and_clears "upgrade-checker" "" 7 envC3
    ⟨SettingNameLatestLonghornVersion, "1.0.0"⟩ rfl rfl rfl rfl

/-- C4 witness: the claim's two-descriptor response selects `1.1.0`, and a
first `"latest"`-tagged descriptor wins even over a later one. -/
theorem checkLatest_first_match_selection_witness :
    findLatestVersionName
        (⟨"1.1.0", "", ["latest"]⟩ :: [⟨"9.9.9", "", ["latest"]⟩])
      = (⟨"1.1.0", "", ["latest"]⟩ : Version).Name
    ∧ CheckLatestLonghornVersion ⟨⟨"1.1.0", "", ["latest"]⟩ :: [⟨"9.9.9", "", ["latest"]⟩]⟩
      = Except.ok (⟨"1.1.0", "", ["latest"]⟩ : Version).Name
    ∧ findLatestVersionName (⟨"1.0.0", "", ["stable"]⟩ :: [⟨"1.1.0", "", ["latest"]⟩])
      = findLatestVersionName [⟨"1.1.0", "", ["latest"]⟩]
    ∧ CheckLatestLonghornVersion
        ⟨[⟨"1.0.0", "", ["stable"]⟩, ⟨"1.1.0", "", ["latest"]⟩]⟩ = Except.ok "1.1.0" :=
  checkLatest_first_match_selection
    ⟨"1.1.0", "", ["latest"]⟩ ⟨"1.0.0", "", ["stable"]⟩
    [⟨"9.9.9", "", ["latest"]⟩] [⟨"1.1.0", "", ["latest"]⟩]
    (by decide) (by decide) (by decide)

/-- Response of the C5 witness: well-formed, no `"latest"` tag anywhere. -/
def respC5 : CheckUpgradeResponse := ⟨[⟨"1.0.0", "", ["stable"]⟩]⟩

/-- Environment of the C5 witness: the check returns the checker's error. -/
def envC5 : SyncEnv :=
  { getSettingAsBool := Except.ok true,
    getSetting := Except.ok ⟨SettingNameLatestLonghornVersion, "1.0.0"⟩,
    now := upgradeCheckInterval,
    check := Except.error "cannot find latest version in response",
    updateErr := none }

/-- C5 witness: a latest-tag-free response errors, the sync returns that
error wrapped, and with zero requeues against a budget of three the key is
re-added rate-limited. -/
theorem checkLatest_no_latest_tag_error_witness :
    CheckLatestLonghornVersion respC5
      = Except.error "cannot find latest version in response"
    ∧ (syncSetting "upgrade-checker" 0 envC5).err
        = some ("fail to sync setting for " ++ "upgrade-checker" ++ ": "
            ++ "cannot find latest version in response")
    ∧ handleErr (syncSetting "upgrade-checker" 0 envC5).err 0 3 "upgrade-checker"
        = [QueueOp.addRateLimited "upgrade-checker"] :=
  checkLatest_no_latest_tag_error respC5 (by decide) "upgrade-checker" "" 0 envC5
    ⟨SettingNameLatestLonghornVersion, "1.0.0"⟩ 0 3
    rfl rfl rfl (by decide) rfl (by decide)

/-- Environment of the C6 witness: the remote check fails. -/
def envC6 : SyncEnv :=
  { getSettingAsBool := Except.ok true,
    getSetting := Except.ok ⟨SettingNameLatestLonghornVersion, "1.0.0"⟩,
    now := upgradeCheckInterval,
    check := Except.error "network down",
    updateErr := none }

/-- C6 witness: a failing check propagates its error and leaves the
timestamp and the store untouched. -/
theorem syncSetting_check_failure_keeps_state_witness :
    (syncSettingBody "upgrade-checker" 0 envC6).err = some "network down"
    ∧ (syncSetting "upgrade-checker" 0 envC6).err
        = some ("fail to sync setting for " ++ "upgrade-checker" ++ ": " ++ "network down")
    ∧ (syncSetting "upgrade-checker" 0 envC6).lastUpgradeCheckedTimestamp = 0
    ∧ (syncSetting "upgrade-checker" 0 envC6).updates = [] :=
  syncSetting_check_failure_keeps_state "upgrade-checker" "" 0 envC6
    ⟨SettingNameLatestLonghornVersion, "1.0.0"⟩ "network down"
    rfl rfl rfl (by decide) rfl

/-- C7 witness: the three worker outcomes at the key `"k"` with a retry
budget of three. -/
theorem processNextWorkItem_outcomes_witness :
    processNextWorkItem (some "k") (fun _ => none) 5 3
      = (true, [QueueOp.forget "k", QueueOp.done "k"])
    ∧ processNextWorkItem (some "k") (fun _ => some "boom") 0 3
      = (true, [QueueOp.addRateLimited "k", QueueOp.done "k"])
    ∧ processNextWorkItem (some "k") (fun _ => some "boom") 3 3
      = (true, [QueueOp.reportError "boom", QueueOp.forget "k", QueueOp.done "k"]) :=
  processNextWorkItem_outcomes "k" "boom" (fun _ => none) (fun _ => some "boom")
    0 3 3 5 rfl rfl (by decide) (by decide)

/-- Environment of the C8 witness; none of its answers are consulted. -/
def envC8 : SyncEnv :=
  { getSettingAsBool := Except.ok true,
    getSetting := Except.ok ⟨SettingNameLatestLonghornVersion, "1.0.0"⟩,
    now := upgradeCheckInterval,
    check := Except.ok "1.1.0",
    updateErr := none }

/-- C8 witness: the key `"other"` is an effect-free success and is only
forgotten. -/
theorem syncSetting_other_key_noop_witness :
    syncSetting "other" 42 envC8 = ⟨none, 42, [], [], 0⟩
    ∧ handleErr (syncSetting "other" 42 envC8).err 1 3 "other"
        = [QueueOp.forget "other"] :=
  syncSetting_other_key_noop "other" "" "other" 42 envC8 1 3 rfl (by decide)

/-- C10 witness: an empty-`Name` first `"latest"` descriptor makes the
checker error, though `1.1.0` follows with the same tag. -/
theorem checkLatest_empty_name_first_latest_errors_witness :
    CheckLatestLonghornVersion ⟨⟨"", "", ["latest"]⟩ :: [⟨"1.1.0", "", ["latest"]⟩]⟩
      = Except.error "cannot find latest version in response" :=
  checkLatest_empty_name_first_latest_errors
    ⟨"", "", ["latest"]⟩ [⟨"1.1.0", "", ["latest"]⟩] rfl (by decide)
